import Mathlib

/-!
Shallow embedding of the deepwiki-mcp-react-demo repository:
the Express proxy in server/index.js and the React UI in client/src/App.jsx.

Conventions of the embedding:
* A request parameter that may be absent (a missing query parameter or body
  field) is an Option String; JavaScript string truthiness is made explicit.
* A remote tool invocation either resolves to a ToolResult (whose content
  field may itself be absent, as in result?.content) or throws a value whose
  message property may be absent.
* JSON response bodies are records of optional fields, so that the presence
  or absence of a field (such as ok) is observable.
* UI actions are modelled as functions from the component state and the
  outcome of the fetch they perform to the resulting component state.
-/

/-- A content block produced by the remote tool: a type discriminator and a
text payload (server/index.js forwards these; App.jsx consumes them). -/
structure ContentBlock where
  type : String
  text : String
deriving DecidableEq, Repr

/-- The resolved value of client.tool.invoke; mirrors that server/index.js
reads result?.content, which may be absent. -/
structure ToolResult where
  content : Option (List ContentBlock)
deriving DecidableEq, Repr

/-- Outcome of awaiting a remote invocation: it resolves to a ToolResult, or
it throws a value whose message property may be absent. -/
inductive RemoteOutcome where
  | success (result : ToolResult)
  | failure (message : Option String)
deriving DecidableEq, Repr

/-- A JSON response body with each field either present or absent, so the
shape of the envelope is observable. -/
structure JsonBody where
  ok : Option Bool
  error : Option String
  data : Option (List ContentBlock)
deriving DecidableEq, Repr

/-- An HTTP response: status code (res.json with no explicit status is 200)
and JSON body. -/
structure HttpResponse where
  status : Nat
  body : JsonBody
deriving DecidableEq, Repr

/-- JavaScript truthiness of a possibly-absent string parameter: !x holds
exactly when x is undefined or the empty string, so truthyParam x is the
check the server performs with if (!owner || !repo). -/
def truthyParam : Option String → Bool
  | none => false
  | some s => s != ""

/-- The expression err?.message || 'unknown error' from the catch blocks of
server/index.js: an absent or empty message is replaced. -/
def errMessage : Option String → String
  | none => "unknown error"
  | some s => if s == "" then "unknown error" else s

/-- Embeds the anonymous handler of app.get('/api/structure') in
server/index.js (lines 27-46): validate owner and repo, invoke the remote
tool, and wrap the outcome.  Returns the HTTP response paired with the
number of client.tool.invoke calls the handler performed. -/
def apiStructure (owner repo : Option String) (remote : RemoteOutcome) :
    HttpResponse × Nat :=
  if !(truthyParam owner) || !(truthyParam repo) then
    (⟨400, ⟨none, some "owner and repo are required", none⟩⟩, 0)
  else
    match remote with
    | .success result =>
        (⟨200, ⟨some true, none, some (result.content.getD [])⟩⟩, 1)
    | .failure m =>
        (⟨500, ⟨some false, some (errMessage m), none⟩⟩, 1)

/-- Embeds the anonymous handler of app.post('/api/ask') in server/index.js
(lines 49-66), analogous to apiStructure but with three required fields. -/
def apiAsk (owner repo question : Option String) (remote : RemoteOutcome) :
    HttpResponse × Nat :=
  if !(truthyParam owner) || !(truthyParam repo) || !(truthyParam question) then
    (⟨400, ⟨none, some "owner, repo, question are required", none⟩⟩, 0)
  else
    match remote with
    | .success result =>
        (⟨200, ⟨some true, none, some (result.content.getD [])⟩⟩, 1)
    | .failure m =>
        (⟨500, ⟨some false, some (errMessage m), none⟩⟩, 1)

/-- The routes registered on the Express app in server/index.js: only
app.get('/api/structure') and app.post('/api/ask') appear in the file. -/
def registeredRoutes : List (String × String) :=
  [("GET", "/api/structure"), ("POST", "/api/ask")]

/-- Whether the server handles a given method and path. -/
def routeHandled (method path : String) : Bool :=
  registeredRoutes.contains (method, path)

/-- The routes the UI (App.jsx) issues requests to: the structure effect,
loadTopic (which fetches /api/contents), and ask. -/
def uiRequestedRoutes : List (String × String) :=
  [("GET", "/api/structure"), ("GET", "/api/contents"), ("POST", "/api/ask")]

/-- Process-wide server state for the lazy MCP client: the nullable
mcpClientPromise variable of server/index.js, plus a count of how many times
createMcpClient has been invoked.  Client handles are identified by the
value of the counter at creation time, so distinct creations yield distinct
handles. -/
structure ServerState where
  mcpClientPromise : Option Nat
  createCount : Nat
deriving DecidableEq, Repr

/-- Embeds getMcpClient of server/index.js (lines 11-20): if the promise is
unset, create the client and store it; return the stored handle. -/
def getMcpClient (s : ServerState) : Nat × ServerState :=
  match s.mcpClientPromise with
  | some c => (c, s)
  | none => (s.createCount, ⟨some s.createCount, s.createCount + 1⟩)

/-- Server state at process start: mcpClientPromise is null and no client
has been created. -/
def initialServerState : ServerState := ⟨none, 0⟩

/-- Runs n sequential calls to getMcpClient, collecting the returned
handles and the final state. -/
def runGetClients : Nat → ServerState → List Nat × ServerState
  | 0, s => ([], s)
  | n + 1, s =>
      let p := getMcpClient s
      let q := runGetClients n p.2
      (p.1 :: q.1, q.2)

/-- The local component state of App.jsx: the useState hooks of the App
component. -/
structure UIState where
  owner : String
  repo : String
  structureList : List String
  selectedTopic : String
  doc : String
  question : String
  answer : String
  loading : Bool
  error : String
deriving DecidableEq, Repr

/-- The initial state of the App component (the useState defaults in
App.jsx). -/
def initialUIState : UIState :=
  { owner := "facebook"
    repo := "react"
    structureList := []
    selectedTopic := ""
    doc := ""
    question := "How does concurrent rendering work?"
    answer := ""
    loading := false
    error := "" }

/-- JavaScript String.prototype.trim: drop leading and trailing whitespace
characters.  Written over the character list so it evaluates by kernel
reduction. -/
def jsTrim (s : String) : String :=
  ⟨((s.data.dropWhile Char.isWhitespace).reverse.dropWhile
      Char.isWhitespace).reverse⟩

/-- The canQuery memo of App.jsx: owner.trim() && repo.trim() coerced to a
boolean. -/
def canQuery (s : UIState) : Bool :=
  (jsTrim s.owner != "") && (jsTrim s.repo != "")

/-- The transform repeated in the structure effect, loadTopic and ask of
App.jsx: keep blocks of type text, take their text, and join with a blank
line. -/
def joinText (blocks : List ContentBlock) : String :=
  String.intercalate "\n\n"
    ((blocks.filter (fun b => b.type == "text")).map (fun b => b.text))

/-- The items computed by the structure effect of App.jsx: the text of the
text blocks, kept as a list. -/
def structureItems (blocks : List ContentBlock) : List String :=
  (blocks.filter (fun b => b.type == "text")).map (fun b => b.text)

/-- Outcome of a fetch as observed by the UI after parsing the JSON: either
an ok envelope carrying the blocks of json.data (absent data read as []), or
a failure with the message the catch block receives. -/
inductive FetchOutcome where
  | ok (blocks : List ContentBlock)
  | err (message : String)
deriving DecidableEq, Repr

/-- The synchronous part of the useEffect on [owner, repo, canQuery] in
App.jsx (lines 41-68): clear structure, selected topic and doc, then issue a
structure request exactly when canQuery holds.  Returns the new state and
whether a request was issued. -/
def ownerRepoChange (s : UIState) : UIState × Bool :=
  ({ s with structureList := [], selectedTopic := "", doc := "" }, canQuery s)

/-- The completion of the structure request of the useEffect in App.jsx:
applied to the state after ownerRepoChange when a request was issued. -/
def applyStructureResponse (s : UIState) (o : FetchOutcome) : UIState :=
  match o with
  | .ok blocks =>
      { s with structureList := structureItems blocks, loading := false,
               error := "" }
  | .err m => { s with error := m, loading := false }

/-- Embeds loadTopic of App.jsx (lines 70-95): guard on an empty topic,
select the topic, clear the doc, fetch /api/contents and either render the
joined text or surface the error. -/
def loadTopic (s : UIState) (topic : String) (o : FetchOutcome) : UIState :=
  if topic == "" then s
  else
    match o with
    | .ok blocks =>
        { s with selectedTopic := topic, doc := joinText blocks,
                 loading := false, error := "" }
    | .err m =>
        { s with selectedTopic := topic, doc := "", error := m,
                 loading := false }

/-- Embeds ask of App.jsx (lines 97-121): guard on canQuery and a non-blank
question, clear the answer, fetch /api/ask and either render the joined text
or surface the error. -/
def ask (s : UIState) (o : FetchOutcome) : UIState :=
  if !(canQuery s) || (jsTrim s.question == "") then s
  else
    match o with
    | .ok blocks =>
        { s with answer := joinText blocks, loading := false, error := "" }
    | .err m =>
        { s with answer := "", error := m, loading := false }

/-- The content blocks of the worked example in the spec: a text block A, a
non-text block, and a text block B. -/
def sampleBlocks : List ContentBlock :=
  [⟨"text", "A"⟩, ⟨"image", "img"⟩, ⟨"text", "B"⟩]

/-- C1: the spec exposes a GET contents operation at /api/contents alongside
structure and ask, so every contents request gets an envelope; but the
server registers no such route (only /api/structure and /api/ask), even
though the UI issues requests to /api/contents, so such a request is left
unhandled. -/
theorem C1_contents_route_missing :
    routeHandled "GET" "/api/contents" = false ∧
    ("GET", "/api/contents") ∈ uiRequestedRoutes ∧
    routeHandled "GET" "/api/structure" = true ∧
    routeHandled "POST" "/api/ask" = true := by
  refine ⟨by decide, by decide, by decide, by decide⟩

/-- C2 counterexample: a structure request with owner missing gets status
400, but its body has no ok field at all, so it is not the envelope
consisting of ok false and an error string that the claim states. -/
theorem C2_counterexample :
    (apiStructure none (some "react") (.failure none)).1.status = 400 ∧
    (apiStructure none (some "react") (.failure none)).1.body.ok ≠ some false := by
  decide

/-- C2 amended: for every request to structure or ask missing a required
input, the response is status 400 with body consisting only of the error
string (no ok field), and no remote call is made. -/
theorem C2_missing_input_400 (owner repo question : Option String)
    (r r' : RemoteOutcome) :
    (truthyParam owner = false ∨ truthyParam repo = false →
      apiStructure owner repo r =
        (⟨400, ⟨none, some "owner and repo are required", none⟩⟩, 0)) ∧
    (truthyParam owner = false ∨ truthyParam repo = false ∨
        truthyParam question = false →
      apiAsk owner repo question r' =
        (⟨400, ⟨none, some "owner, repo, question are required", none⟩⟩, 0)) := by
  constructor
  · intro h
    have : (!(truthyParam owner) || !(truthyParam repo)) = true := by
      rcases h with h | h <;> simp [h]
    simp [apiStructure, this]
  · intro h
    have : (!(truthyParam owner) || !(truthyParam repo) ||
        !(truthyParam question)) = true := by
      rcases h with h | h | h <;> simp [h]
    simp [apiAsk, this]

/-- C2 witness: instantiating C2_missing_input_400 at concrete missing
inputs. -/
theorem C2_missing_input_400_witness :
    apiStructure none (some "react") (.failure none) =
      (⟨400, ⟨none, some "owner and repo are required", none⟩⟩, 0) ∧
    apiAsk (some "facebook") (some "react") none (.failure none) =
      (⟨400, ⟨none, some "owner, repo, question are required", none⟩⟩, 0) :=
  ⟨(C2_missing_input_400 none (some "react") none (.failure none)
      (.failure none)).1 (Or.inl (by decide)),
   (C2_missing_input_400 (some "facebook") (some "react") none (.failure none)
      (.failure none)).2 (Or.inr (Or.inr (by decide)))⟩

/-- C3 counterexample: a resolved remote result with no content field is not
answered with an error envelope and a server-error status; the proxy
responds 200 with ok true and empty data. -/
theorem C3_counterexample :
    (apiStructure (some "facebook") (some "react") (.success ⟨none⟩)).1 =
      ⟨200, ⟨some true, none, some []⟩⟩ := by
  decide

/-- C3 amended: on both handlers, a resolved remote result with no content
field is treated as success with empty data (ok true, status 200); only a
remote invocation that throws is answered with the error envelope and status
500. -/
theorem C3_missing_content_is_success (owner repo question : Option String)
    (h1 : truthyParam owner = true) (h2 : truthyParam repo = true)
    (h3 : truthyParam question = true) :
    apiStructure owner repo (.success ⟨none⟩) =
      (⟨200, ⟨some true, none, some []⟩⟩, 1) ∧
    apiAsk owner repo question (.success ⟨none⟩) =
      (⟨200, ⟨some true, none, some []⟩⟩, 1) ∧
    ∀ m, apiStructure owner repo (.failure m) =
        (⟨500, ⟨some false, some (errMessage m), none⟩⟩, 1) ∧
      apiAsk owner repo question (.failure m) =
        (⟨500, ⟨some false, some (errMessage m), none⟩⟩, 1) := by
  refine ⟨?_, ?_, ?_⟩
  · simp [apiStructure, h1, h2]
  · simp [apiAsk, h1, h2, h3]
  · intro m
    constructor
    · simp [apiStructure, h1, h2]
    · simp [apiAsk, h1, h2, h3]

/-- C3 witness: instantiating C3_missing_content_is_success at concrete
inputs on both handlers. -/
theorem C3_missing_content_is_success_witness :
    apiStructure (some "facebook") (some "react") (.success ⟨none⟩) =
      (⟨200, ⟨some true, none, some []⟩⟩, 1) ∧
    apiAsk (some "facebook") (some "react") (some "why") (.success ⟨none⟩) =
      (⟨200, ⟨some true, none, some []⟩⟩, 1) ∧
    apiStructure (some "facebook") (some "react") (.failure none) =
      (⟨500, ⟨some false, some "unknown error", none⟩⟩, 1) ∧
    apiAsk (some "facebook") (some "react") (some "why") (.failure none) =
      (⟨500, ⟨some false, some "unknown error", none⟩⟩, 1) :=
  ⟨(C3_missing_content_is_success (some "facebook") (some "react")
      (some "why") (by decide) (by decide) (by decide)).1,
   (C3_missing_content_is_success (some "facebook") (some "react")
      (some "why") (by decide) (by decide) (by decide)).2.1,
   ((C3_missing_content_is_success (some "facebook") (some "react")
      (some "why") (by decide) (by decide) (by decide)).2.2 none).1,
   ((C3_missing_content_is_success (some "facebook") (some "react")
      (some "why") (by decide) (by decide) (by decide)).2.2 none).2⟩

/-- C4: for every request to structure or ask missing a required field, the
proxy returns a client-error status 400 and performs zero remote
invocations. -/
theorem C4_no_remote_call_on_missing (owner repo question : Option String)
    (r r' : RemoteOutcome) :
    (truthyParam owner = false ∨ truthyParam repo = false →
      (apiStructure owner repo r).2 = 0 ∧
      (apiStructure owner repo r).1.status = 400) ∧
    (truthyParam owner = false ∨ truthyParam repo = false ∨
        truthyParam question = false →
      (apiAsk owner repo question r').2 = 0 ∧
      (apiAsk owner repo question r').1.status = 400) := by
  constructor
  · intro h
    have : (!(truthyParam owner) || !(truthyParam repo)) = true := by
      rcases h with h | h <;> simp [h]
    simp [apiStructure, this]
  · intro h
    have : (!(truthyParam owner) || !(truthyParam repo) ||
        !(truthyParam question)) = true := by
      rcases h with h | h | h <;> simp [h]
    simp [apiAsk, this]

/-- C4 witness: instantiating C4_no_remote_call_on_missing at concrete
missing inputs. -/
theorem C4_no_remote_call_on_missing_witness :
    ((apiStructure (some "") (some "react") (.failure none)).2 = 0 ∧
      (apiStructure (some "") (some "react") (.failure none)).1.status = 400) ∧
    ((apiAsk (some "facebook") (some "react") (some "") (.failure none)).2 = 0 ∧
      (apiAsk (some "facebook") (some "react") (some "") (.failure none)).1.status = 400) :=
  ⟨(C4_no_remote_call_on_missing (some "") (some "react") none (.failure none)
      (.failure none)).1 (Or.inl (by decide)),
   (C4_no_remote_call_on_missing (some "facebook") (some "react") (some "")
      (.failure none) (.failure none)).2 (Or.inr (Or.inr (by decide)))⟩

/-- C5 counterexample: a remote invocation that throws a value whose message
is the empty string is answered with the error text replaced by the string
unknown error, not with the underlying message surfaced unsanitized. -/
theorem C5_counterexample :
    (apiStructure (some "facebook") (some "react")
        (.failure (some ""))).1.body.error = some "unknown error" ∧
    (apiStructure (some "facebook") (some "react")
        (.failure (some ""))).1.body.error ≠ some "" := by
  decide

/-- C5 amended: for every remote invocation that throws, the proxy responds
exactly once with ok false and status 500, surfacing the underlying message
verbatim when it is present and non-empty, and substituting the fixed string
unknown error when it is absent or empty; the failure never escapes the
handler. -/
theorem C5_remote_throw_500 (owner repo question : Option String)
    (m : Option String)
    (h1 : truthyParam owner = true) (h2 : truthyParam repo = true)
    (h3 : truthyParam question = true) :
    apiStructure owner repo (.failure m) =
      (⟨500, ⟨some false, some (errMessage m), none⟩⟩, 1) ∧
    apiAsk owner repo question (.failure m) =
      (⟨500, ⟨some false, some (errMessage m), none⟩⟩, 1) := by
  constructor
  · simp [apiStructure, h1, h2]
  · simp [apiAsk, h1, h2, h3]

/-- C5 witness: instantiating C5_remote_throw_500 at a concrete thrown
message. -/
theorem C5_remote_throw_500_witness :
    apiStructure (some "facebook") (some "react") (.failure (some "boom")) =
      (⟨500, ⟨some false, some "boom", none⟩⟩, 1) ∧
    apiAsk (some "facebook") (some "react") (some "why")
        (.failure (some "boom")) =
      (⟨500, ⟨some false, some "boom", none⟩⟩, 1) :=
  C5_remote_throw_500 (some "facebook") (some "react") (some "why")
    (some "boom") (by decide) (by decide) (by decide)

/-- C6: for a successful remote invocation returning a text block A, an
image block and a text block B, the proxy forwards the full array unfiltered
in the data field of its ok envelope, and the UI (loadTopic and ask) filters
the non-text block and joins the texts with a blank line, displaying exactly
A, a blank line, and B. -/
theorem C6_forward_unfiltered_render_joined :
    (apiStructure (some "facebook") (some "react")
        (.success ⟨some sampleBlocks⟩)).1 =
      ⟨200, ⟨some true, none, some sampleBlocks⟩⟩ ∧
    (loadTopic initialUIState "Overview" (.ok sampleBlocks)).doc = "A\n\nB" ∧
    (ask initialUIState (.ok sampleBlocks)).answer = "A\n\nB" := by
  refine ⟨by decide, ?_, ?_⟩ <;> decide

/-- C7 counterexample: with owner a single space and repo react, both fields
are non-empty strings, yet the owner-or-repo-change effect issues no
structure request, refuting the stated if-and-only-if. -/
theorem C7_counterexample :
    ({ initialUIState with owner := " " } : UIState).owner ≠ "" ∧
    ({ initialUIState with owner := " " } : UIState).repo ≠ "" ∧
    (ownerRepoChange { initialUIState with owner := " " }).2 = false := by
  decide

/-- C7 amended: every change of owner or repo clears the loaded structure,
the selected topic and the document text, and a structure request is issued
if and only if both fields are non-empty after trimming whitespace. -/
theorem C7_change_clears_then_requests (s : UIState) :
    (ownerRepoChange s).1.structureList = [] ∧
    (ownerRepoChange s).1.selectedTopic = "" ∧
    (ownerRepoChange s).1.doc = "" ∧
    ((ownerRepoChange s).2 = true ↔
      (jsTrim s.owner ≠ "" ∧ jsTrim s.repo ≠ "")) := by
  refine ⟨rfl, rfl, rfl, ?_⟩
  simp [ownerRepoChange, canQuery]

/-- C8: for every completed ask action, whatever the fetch outcome, the
question field (and every field other than answer, loading and error) is
unchanged from the state at submission. -/
theorem C8_ask_preserves_question (s : UIState) (o : FetchOutcome) :
    (ask s o).question = s.question ∧
    (ask s o).owner = s.owner ∧
    (ask s o).repo = s.repo ∧
    (ask s o).structureList = s.structureList ∧
    (ask s o).selectedTopic = s.selectedTopic ∧
    (ask s o).doc = s.doc := by
  unfold ask
  split
  · exact ⟨rfl, rfl, rfl, rfl, rfl, rfl⟩
  · cases o <;> exact ⟨rfl, rfl, rfl, rfl, rfl, rfl⟩

/-- Helper for C9: once the client promise is set, every further call
returns the stored handle and creates nothing. -/
theorem runGetClients_cached (n : Nat) (c k : Nat) :
    runGetClients n ⟨some c, k⟩ = (List.replicate n c, ⟨some c, k⟩) := by
  induction n with
  | zero => rfl
  | succ m ih => simp [runGetClients, getMcpClient, ih, List.replicate]

/-- C9: starting from process start, a sequence of n calls to getMcpClient
creates the client exactly on the first call (zero creations when no call is
made, one creation otherwise) and returns the same handle every time. -/
theorem C9_lazy_singleton_client (n : Nat) :
    (runGetClients n initialServerState).2.createCount =
      (if n = 0 then 0 else 1) ∧
    (runGetClients n initialServerState).1 = List.replicate n 0 := by
  cases n with
  | zero => exact ⟨rfl, rfl⟩
  | succ m =>
      have h : runGetClients (m + 1) initialServerState =
          (0 :: List.replicate m 0, ⟨some 0, 1⟩) := by
        simp [runGetClients, initialServerState, getMcpClient,
          runGetClients_cached]
      rw [h]
      exact ⟨rfl, rfl⟩

/-- C10: a whitespace-only owner passes the proxy's truthiness validation,
so a remote invocation is attempted for it, while the UI's trim-based guard
rejects it: the structure effect issues no request and the ask action is a
no-op, so the proxy and the UI disagree on which identifiers count as
present. -/
theorem C10_whitespace_owner_disagreement (r : RemoteOutcome) :
    truthyParam (some " ") = true ∧
    (apiStructure (some " ") (some "react") r).2 = 1 ∧
    canQuery { initialUIState with owner := " " } = false ∧
    (ownerRepoChange { initialUIState with owner := " " }).2 = false ∧
    ask { initialUIState with owner := " " } (.ok sampleBlocks) =
      { initialUIState with owner := " " } := by
  refine ⟨by decide, ?_, by decide, by decide, by decide⟩
  cases r <;> simp [apiStructure, truthyParam]
